import Mathlib

/-
Verification of the playlist downloader scripts (src/playlists.py and
src/playlists.m3u.py).

Modelling conventions:
- Byte strings are `List Nat` (each element an octet value).
- File paths and URLs are `List Char`.
- The single file at the destination path is `Option Bytes`
  (`none` = absent); it is threaded through each download attempt.
- The network is an oracle `inputs : Nat → AttemptInput` giving, for each
  attempt number, either a transport-level exception or an HTTP response
  (status code and body).  The m3u variant additionally models a body read
  that fails midway, after part of the body has been written to disk.
- gzip decoding (the Python gzip library) is an oracle
  `dec : Bytes → Option Bytes`: `none` models gzip.open/read raising,
  `some payload` a successful decode of the whole stream.
-/

/-- Byte content: a list of octet values. -/
abbrev Bytes := List Nat

/-- Does the second list begin with the first list?  (Leading-segment test.) -/
def bytesLeadMatch : Bytes → Bytes → Bool
  | [], _ => true
  | _ :: _, [] => false
  | a :: as, b :: bs => a == b && bytesLeadMatch as bs

/-- Substring containment on byte lists, the semantics of the Python
operator `in` on bytes. -/
def bytesContains (needle : Bytes) : Bytes → Bool
  | [] => bytesLeadMatch needle []
  | b :: bs => bytesLeadMatch needle (b :: bs) || bytesContains needle bs

/-- Does the character list `s` begin with `p`?  (Python str.startswith.) -/
def strStartsWith : List Char → List Char → Bool
  | _, [] => true
  | [], _ :: _ => false
  | c :: cs, p :: ps => c == p && strStartsWith cs ps

/-- Does the character list `s` end with `suf`?  (Python str.endswith.) -/
def strEndsWith (s suf : List Char) : Bool :=
  strStartsWith s.reverse suf.reverse

/-- Python str.lower on a character list. -/
def toLowerStr (s : List Char) : List Char := s.map Char.toLower

/-- `validate_url` from src/playlists.py line 78 (identical in
src/playlists.m3u.py line 40): the URL must start with http:// or https://. -/
def validate_url (url : List Char) : Bool :=
  strStartsWith url "http://".toList || strStartsWith url "https://".toList

/-- Exceptions that the Python code can raise. -/
inductive PyError where
  | invalidURLError
  | downloadError
  | fileValidationError
deriving DecidableEq

/-- How a call to download_file ends: an uncaught exception, or a Python
return value (`none` models the Python value None, reached by falling off
the end of the function). -/
inductive DlResult where
  | raised (e : PyError)
  | returned (v : Option Bool)
deriving DecidableEq

/-- Observable trace of one download_file call: final result, number of
loop iterations run, number of HTTP requests issued, the sleep durations
performed (in order), the per-attempt outcomes (the logged errors), and
the final content at the destination path. -/
structure DlTrace (ω : Type) where
  result : DlResult
  attemptsUsed : Nat
  requestsMade : Nat
  sleeps : List Nat
  outcomes : List ω
  fs : Option Bytes
deriving DecidableEq

namespace Playlists

/-- `validate_file_extension` from src/playlists.py line 90:
case-insensitive extension test. -/
def validate_file_extension (file_path expected_ext : List Char) : Bool :=
  strEndsWith (toLowerStr file_path) (toLowerStr expected_ext)

/-- The marker bytes of b"#EXTM3U". -/
def extm3uMarker : Bytes := "#EXTM3U".toList.map Char.toNat

/-- `is_valid_m3u` from src/playlists.py line 103:
b"#EXTM3U" in content[:100]. -/
def is_valid_m3u (content : Bytes) : Bool :=
  bytesContains extm3uMarker (content.take 100)

/-- `is_valid_xml_gz` from src/playlists.py line 115:
content[:2] == b"\x1f\x8b". -/
def is_valid_xml_gz (content : Bytes) : Bool :=
  content.take 2 == [0x1f, 0x8b]

/-- `verify_gzip` from src/playlists.py line 127: open the file as a gzip
stream and read one byte; True unless an exception occurs.  `dec` is the
gzip-decoding oracle (`none` = gzip.open/read raises); reading one byte of
a successfully decodable stream never raises, whatever the payload length. -/
def verify_gzip (dec : Bytes → Option Bytes) (fileContent : Bytes) : Bool :=
  (dec fileContent).isSome

/-- What the network does on one attempt. -/
inductive AttemptInput where
  | raiseTransport
  | respond (status : Nat) (content : Bytes)
deriving DecidableEq

/-- Outcome of one iteration of the retry loop in download_file. -/
inductive AttemptOutcome where
  | success
  | failTransport
  | failStatus (code : Nat)
  | failContentM3u
  | failContentGz
  | failEmpty
  | failCorruptGzip
deriving DecidableEq

/-- One iteration of the try-body of download_file (src/playlists.py lines
174-224): request, status check (!= 200), in-memory content validation by
extension, write to save_path, post-write empty-file check, post-write gzip
check.  Returns the outcome and the content at save_path afterwards.  Note
that the write (line 199) happens before the size check (line 203) and the
gzip check (line 209). -/
def attempt_step (dec : Bytes → Option Bytes) (save_path : List Char)
    (fs : Option Bytes) (input : AttemptInput) : AttemptOutcome × Option Bytes :=
  match input with
  | .raiseTransport => (.failTransport, fs)
  | .respond status content =>
    if status ≠ 200 then (.failStatus status, fs)
    else if validate_file_extension save_path ".m3u".toList && !is_valid_m3u content then
      (.failContentM3u, fs)
    else if validate_file_extension save_path ".xml.gz".toList && !is_valid_xml_gz content then
      (.failContentGz, fs)
    else if content.length = 0 then (.failEmpty, some content)
    else if strEndsWith save_path ".xml.gz".toList && !verify_gzip dec content then
      (.failCorruptGzip, some content)
    else (.success, some content)

/-- The retry loop of download_file (src/playlists.py lines 173-233),
as a recursion on the remaining number of iterations.  `attempt` is the
1-based Python loop variable; `fuel` is `retries - attempt + 1`.  On a
caught exception with attempts remaining the code sleeps `2 ** attempt`
seconds; on the last attempt it returns False; if the loop never runs the
function falls off the end and returns None. -/
def download_go (dec : Bytes → Option Bytes) (save_path : List Char)
    (inputs : Nat → AttemptInput) :
    Nat → Nat → Option Bytes → Nat → List Nat → List AttemptOutcome →
    DlTrace AttemptOutcome
  | 0, attempt, fs, reqs, sleeps, outs =>
      ⟨.returned none, attempt - 1, reqs, sleeps, outs, fs⟩
  | fuel + 1, attempt, fs, reqs, sleeps, outs =>
      let s := attempt_step dec save_path fs (inputs attempt)
      if s.1 = .success then
        ⟨.returned (some true), attempt, reqs + 1, sleeps, outs ++ [s.1], s.2⟩
      else if fuel = 0 then
        ⟨.returned (some false), attempt, reqs + 1, sleeps, outs ++ [s.1], s.2⟩
      else
        download_go dec save_path inputs fuel (attempt + 1) s.2 (reqs + 1)
          (sleeps ++ [2 ^ attempt]) (outs ++ [s.1])

/-- `download_file` from src/playlists.py line 149: validate the URL once
before the loop (raising InvalidURLError), then run up to `retries`
attempts.  `fs₀` is the prior content at save_path. -/
def download_file (dec : Bytes → Option Bytes) (url save_path : List Char)
    (retries : Int) (inputs : Nat → AttemptInput) (fs₀ : Option Bytes) :
    DlTrace AttemptOutcome :=
  if validate_url url then
    download_go dec save_path inputs retries.toNat 1 fs₀ 0 [] []
  else
    ⟨.raised .invalidURLError, 0, 0, [], [], fs₀⟩

/-- The fan-in loop of main (src/playlists.py lines 334-342): one result
per future; a truthy result increments success_count, a falsy result
(False or None) or a raised exception increments failure_count. -/
def main_counts : List DlResult → Nat × Nat
  | [] => (0, 0)
  | r :: rs =>
      let p := main_counts rs
      match r with
      | .returned (some true) => (p.1 + 1, p.2)
      | _ => (p.1, p.2 + 1)

end Playlists

namespace PlaylistsM3u

/-- What the network does on one attempt in src/playlists.m3u.py.
`respondPartial` models a streamed body read that raises after `written`
bytes were already written to the destination file. -/
inductive AttemptInput where
  | raiseTransport
  | respond (status : Nat) (content : Bytes)
  | respondPartial (status : Nat) (written : Bytes)
deriving DecidableEq

/-- Outcome of one iteration of the retry loop in the m3u variant. -/
inductive AttemptOutcome where
  | success
  | failTransport
  | failHttpStatus (code : Nat)
  | failEmpty
  | failPartial
deriving DecidableEq

/-- One iteration of the try-body of download_file (src/playlists.m3u.py
lines 75-108): request, raise_for_status (raises exactly for 400-599),
stream the body into save_path, then the size check: a non-empty file is
success; an empty file is removed (os.remove) and the loop continues
without an exception (so without a sleep). -/
def attempt_step (fs : Option Bytes) (input : AttemptInput) :
    AttemptOutcome × Option Bytes :=
  match input with
  | .raiseTransport => (.failTransport, fs)
  | .respond status content =>
    if 400 ≤ status ∧ status < 600 then (.failHttpStatus status, fs)
    else if 0 < content.length then (.success, some content)
    else (.failEmpty, none)
  | .respondPartial status written =>
    if 400 ≤ status ∧ status < 600 then (.failHttpStatus status, fs)
    else (.failPartial, some written)

/-- The retry loop of download_file (src/playlists.m3u.py lines 74-123):
`attempt` is the 0-based Python loop variable, `fuel` is
`retries - attempt`.  A caught exception sleeps the constant
DELAY_BETWEEN_TRIES = 2 when `attempt < retries - 1`; the empty-file path
is not an exception and never sleeps.  When the loop ends without a
success the function returns False. -/
def download_go (inputs : Nat → AttemptInput) :
    Nat → Nat → Option Bytes → Nat → List Nat → List AttemptOutcome →
    DlTrace AttemptOutcome
  | 0, attempt, fs, reqs, sleeps, outs =>
      ⟨.returned (some false), attempt, reqs, sleeps, outs, fs⟩
  | fuel + 1, attempt, fs, reqs, sleeps, outs =>
      let s := attempt_step fs (inputs attempt)
      if s.1 = .success then
        ⟨.returned (some true), attempt + 1, reqs + 1, sleeps, outs ++ [s.1], s.2⟩
      else
        let sleeps' :=
          if s.1 ≠ .failEmpty ∧ fuel ≠ 0 then sleeps ++ [2] else sleeps
        download_go inputs fuel (attempt + 1) s.2 (reqs + 1) sleeps'
          (outs ++ [s.1])

/-- `download_file` from src/playlists.m3u.py line 57: validate the URL
(returning False, no attempt made), then run up to `retries` attempts. -/
def download_file (url : List Char) (retries : Int)
    (inputs : Nat → AttemptInput) (fs₀ : Option Bytes) :
    DlTrace AttemptOutcome :=
  if validate_url url then
    download_go inputs retries.toNat 0 fs₀ 0 [] []
  else
    ⟨.returned (some false), 0, 0, [], [], fs₀⟩

end PlaylistsM3u

/- Concrete instances used by witnesses and counterexamples. -/

/-- A URL with an unaccepted scheme. -/
def ftpUrl : List Char := "ftp://example.com/x".toList

/-- A well-formed http URL. -/
def httpUrl : List Char := "http://example.com/a".toList

/-- A destination path with the .m3u extension. -/
def m3uPath : List Char := "out/list.m3u".toList

/-- A destination path with the .xml.gz extension. -/
def xmlGzPath : List Char := "out/epg.xml.gz".toList

/-- gzip oracle for a corrupt stream: decoding always raises. -/
def decNone : Bytes → Option Bytes := fun _ => none

/-- gzip oracle for a valid stream whose payload is empty: decoding
succeeds and yields zero bytes. -/
def decEmptyPayload : Bytes → Option Bytes := fun _ => some []

/-- A body that starts with the #EXTM3U marker. -/
def extm3uBody : Bytes := "#EXTM3U\n".toList.map Char.toNat

/-- A network whose attempt 1 (1-based, py variant) raises a transport
error and whose attempt 2 returns a valid playlist: a success at the
second attempt. -/
def failThenOk : Nat → Playlists.AttemptInput
  | 0 => .raiseTransport
  | 1 => .raiseTransport
  | _ + 2 => .respond 200 extm3uBody

/-- A network whose attempt 0 (0-based, m3u variant) raises a transport
error and whose attempt 1 returns a non-empty body: a success at the
second attempt. -/
def failThenOk₂ : Nat → PlaylistsM3u.AttemptInput
  | 0 => .raiseTransport
  | _ + 1 => .respond 200 [65]

/-- A network whose attempt 0 (0-based, m3u variant) returns an empty
body — an empty-file failure, which raises no exception and sleeps
nothing — and whose later attempts raise a transport error. -/
def emptyThenTransport : Nat → PlaylistsM3u.AttemptInput
  | 0 => .respond 200 []
  | _ + 1 => .raiseTransport

/- Helper lemmas. -/

/-- bytesLeadMatch tests the leading-segment relation. -/
theorem bytesLeadMatch_iff (n : Bytes) : ∀ h : Bytes,
    bytesLeadMatch n h = true ↔ ∃ t, h = n ++ t := by
  induction n with
  | nil => intro h; simp [bytesLeadMatch]
  | cons a as ih =>
    intro h
    cases h with
    | nil => simp [bytesLeadMatch]
    | cons b bs =>
      simp only [bytesLeadMatch, Bool.and_eq_true, beq_iff_eq, ih,
        List.cons_append, List.cons.injEq]
      constructor
      · rintro ⟨rfl, t, rfl⟩; exact ⟨t, rfl, rfl⟩
      · rintro ⟨t, rfl, rfl⟩; exact ⟨rfl, t, rfl⟩

/-- bytesContains tests substring containment, the semantics of the
Python operator `in` on bytes. -/
theorem bytesContains_iff (n : Bytes) : ∀ h : Bytes,
    bytesContains n h = true ↔ ∃ l r, h = l ++ n ++ r := by
  intro h
  induction h with
  | nil =>
    simp only [bytesContains, bytesLeadMatch_iff]
    constructor
    · rintro ⟨t, ht⟩; exact ⟨[], t, by simpa using ht⟩
    · rintro ⟨l, r, hlr⟩
      rcases List.append_eq_nil.mp hlr.symm with ⟨h1, -⟩
      rcases List.append_eq_nil.mp h1 with ⟨-, h3⟩
      exact ⟨[], by simp [h3]⟩
  | cons b bs ih =>
    simp only [bytesContains, Bool.or_eq_true, bytesLeadMatch_iff, ih]
    constructor
    · rintro (⟨t, ht⟩ | ⟨l, r, rfl⟩)
      · exact ⟨[], t, by simpa using ht⟩
      · exact ⟨b :: l, r, rfl⟩
    · rintro ⟨l, r, hlr⟩
      cases l with
      | nil => exact Or.inl ⟨r, by simpa using hlr⟩
      | cons x xs =>
        rw [List.cons_append, List.cons_append] at hlr
        injection hlr with h1 h2
        exact Or.inr ⟨xs, r, by simpa using h2⟩

/-- The last element of a nonempty constant list. -/
theorem getLast?_replicate_succ {α : Type} (a : α) : ∀ n : Nat,
    (List.replicate (n + 1) a).getLast? = some a := by
  intro n
  induction n with
  | zero => rfl
  | succ m ih =>
    rw [List.replicate_succ, List.replicate_succ, List.getLast?_cons_cons,
      ← List.replicate_succ]
    exact ih

/-- On a network that raises a transport error at every attempt, the retry
loop of src/playlists.py runs all of its remaining iterations, sleeping
2 ^ attempt after each non-final one, and returns False without touching
the destination file. -/
theorem Playlists.go_transport_py (dec : Bytes → Option Bytes) (sp : List Char)
    (inputs : Nat → Playlists.AttemptInput)
    (hi : ∀ k, inputs k = .raiseTransport) :
    ∀ f attempt fs reqs sleeps outs,
      Playlists.download_go dec sp inputs (f + 1) attempt fs reqs sleeps outs =
        ⟨.returned (some false), attempt + f, reqs + f + 1,
         sleeps ++ (List.range f).map (fun i => 2 ^ (attempt + i)),
         outs ++ List.replicate (f + 1) .failTransport, fs⟩ := by
  intro f
  induction f with
  | zero =>
    intro attempt fs reqs sleeps outs
    simp [Playlists.download_go, hi, Playlists.attempt_step]
  | succ f ih =>
    intro attempt fs reqs sleeps outs
    rw [Playlists.download_go]
    simp only [hi, Playlists.attempt_step]
    rw [if_neg (by simp), if_neg (by omega)]
    rw [ih]
    have hs : (List.range (f + 1)).map (fun i => 2 ^ (attempt + i)) =
        2 ^ attempt :: (List.range f).map (fun i => 2 ^ (attempt + 1 + i)) := by
      rw [List.range_succ_eq_map, List.map_cons, List.map_map]
      refine congrArg₂ List.cons (by simp) (List.map_congr_left ?_)
      intro i _
      simp only [Function.comp]
      congr 1
      omega
    rw [hs]
    simp [List.append_assoc, List.replicate_succ, DlTrace.mk.injEq]
    omega

/-- On a network that raises a transport error at every attempt, the retry
loop of src/playlists.m3u.py runs all of its remaining iterations,
sleeping the constant 2 after each non-final one, and returns False
without touching the destination file. -/
theorem PlaylistsM3u.go_transport_m3u (inputs : Nat → PlaylistsM3u.AttemptInput)
    (hi : ∀ k, inputs k = .raiseTransport) :
    ∀ f attempt fs reqs sleeps outs,
      PlaylistsM3u.download_go inputs (f + 1) attempt fs reqs sleeps outs =
        ⟨.returned (some false), attempt + f + 1, reqs + f + 1,
         sleeps ++ List.replicate f 2,
         outs ++ List.replicate (f + 1) .failTransport, fs⟩ := by
  intro f
  induction f with
  | zero =>
    intro attempt fs reqs sleeps outs
    simp [PlaylistsM3u.download_go, hi, PlaylistsM3u.attempt_step]
  | succ f ih =>
    intro attempt fs reqs sleeps outs
    rw [PlaylistsM3u.download_go]
    simp only [hi, PlaylistsM3u.attempt_step]
    rw [if_neg (by simp)]
    rw [if_pos (by simp)]
    rw [ih]
    simp [List.replicate_succ, List.append_assoc]
    omega

/-- When retries ≥ 1 (the loop runs), download_file of src/playlists.py
returns a boolean (True or False), never None. -/
theorem Playlists.go_bool (dec : Bytes → Option Bytes) (sp : List Char)
    (inputs : Nat → Playlists.AttemptInput) :
    ∀ f attempt fs reqs sleeps outs, ∃ b,
      (Playlists.download_go dec sp inputs (f + 1) attempt fs reqs sleeps
        outs).result = .returned (some b) := by
  intro f
  induction f with
  | zero =>
    intro attempt fs reqs sleeps outs
    by_cases h : (Playlists.attempt_step dec sp fs (inputs attempt)).1 = .success
    · exact ⟨true, by rw [Playlists.download_go, if_pos h]⟩
    · exact ⟨false, by rw [Playlists.download_go, if_neg h, if_pos rfl]⟩
  | succ f ih =>
    intro attempt fs reqs sleeps outs
    by_cases h : (Playlists.attempt_step dec sp fs (inputs attempt)).1 = .success
    · exact ⟨true, by rw [Playlists.download_go, if_pos h]⟩
    · rw [Playlists.download_go, if_neg h, if_neg (by omega)]
      exact ih ..

/-- The outcome of one attempt of src/playlists.py does not depend on the
current content of the destination file: the state is only passed
through, so whether an attempt succeeds is a property of the network
input alone. -/
theorem Playlists.attempt_step_fst_const_py (dec : Bytes → Option Bytes)
    (sp : List Char) (fs fs' : Option Bytes) (input : Playlists.AttemptInput) :
    (Playlists.attempt_step dec sp fs input).1 =
      (Playlists.attempt_step dec sp fs' input).1 := by
  cases input with
  | raiseTransport => rfl
  | respond status content =>
    simp only [Playlists.attempt_step]
    split_ifs <;> rfl

/-- The outcome of one attempt of src/playlists.m3u.py does not depend on
the current content of the destination file. -/
theorem PlaylistsM3u.attempt_step_fst_const_m3u (fs fs' : Option Bytes)
    (input : PlaylistsM3u.AttemptInput) :
    (PlaylistsM3u.attempt_step fs input).1 =
      (PlaylistsM3u.attempt_step fs' input).1 := by
  cases input with
  | raiseTransport => rfl
  | respond status content =>
    simp only [PlaylistsM3u.attempt_step]
    split_ifs <;> rfl
  | respondPartial status written =>
    simp only [PlaylistsM3u.attempt_step]
    split_ifs <;> rfl

/-- When the retry loop of src/playlists.py reaches an attempt such that
the next j inputs fail and the input after them succeeds (with enough
fuel), it returns True at that succeeding attempt: attempts stop there,
exactly j + 1 more requests are made, and no sleep follows the success. -/
theorem Playlists.go_first_success_py (dec : Bytes → Option Bytes)
    (sp : List Char) (inputs : Nat → Playlists.AttemptInput) :
    ∀ j f attempt fs reqs sleeps outs, j < f + 1 →
      (∀ i, i < j →
        (Playlists.attempt_step dec sp none (inputs (attempt + i))).1 ≠
          .success) →
      (Playlists.attempt_step dec sp none (inputs (attempt + j))).1 =
        .success →
      (Playlists.download_go dec sp inputs (f + 1) attempt fs reqs sleeps
          outs).result = .returned (some true) ∧
      (Playlists.download_go dec sp inputs (f + 1) attempt fs reqs sleeps
          outs).attemptsUsed = attempt + j ∧
      (Playlists.download_go dec sp inputs (f + 1) attempt fs reqs sleeps
          outs).requestsMade = reqs + j + 1 ∧
      (Playlists.download_go dec sp inputs (f + 1) attempt fs reqs sleeps
          outs).sleeps.length = sleeps.length + j := by
  intro j
  induction j with
  | zero =>
    intro f attempt fs reqs sleeps outs _ _ hok
    have hs : (Playlists.attempt_step dec sp fs (inputs attempt)).1 =
        .success := by
      rw [Playlists.attempt_step_fst_const_py dec sp fs none]
      simpa using hok
    refine ⟨?_, ?_, ?_, ?_⟩ <;> simp [Playlists.download_go, hs]
  | succ j ih =>
    intro f attempt fs reqs sleeps outs hlt hfail hok
    obtain ⟨f, rfl⟩ : ∃ g, f = g + 1 := ⟨f - 1, by omega⟩
    have hs0 : (Playlists.attempt_step dec sp fs (inputs attempt)).1 ≠
        .success := by
      rw [Playlists.attempt_step_fst_const_py dec sp fs none]
      simpa using hfail 0 (by omega)
    have hstep : Playlists.download_go dec sp inputs (f + 1 + 1) attempt fs
        reqs sleeps outs =
        Playlists.download_go dec sp inputs (f + 1) (attempt + 1)
          (Playlists.attempt_step dec sp fs (inputs attempt)).2 (reqs + 1)
          (sleeps ++ [2 ^ attempt])
          (outs ++ [(Playlists.attempt_step dec sp fs (inputs attempt)).1]) := by
      rw [Playlists.download_go, if_neg hs0, if_neg (by omega)]
    rw [hstep]
    have hfail1 : ∀ i, i < j →
        (Playlists.attempt_step dec sp none (inputs (attempt + 1 + i))).1 ≠
          .success := by
      intro i hi
      have h := hfail (i + 1) (by omega)
      have e : attempt + (i + 1) = attempt + 1 + i := by omega
      rwa [e] at h
    have hok1 : (Playlists.attempt_step dec sp none
        (inputs (attempt + 1 + j))).1 = .success := by
      have e : attempt + (j + 1) = attempt + 1 + j := by omega
      rwa [e] at hok
    obtain ⟨c1, c2, c3, c4⟩ := ih f (attempt + 1)
      (Playlists.attempt_step dec sp fs (inputs attempt)).2 (reqs + 1)
      (sleeps ++ [2 ^ attempt])
      (outs ++ [(Playlists.attempt_step dec sp fs (inputs attempt)).1])
      (by omega) hfail1 hok1
    exact ⟨c1, c2.trans (by omega), c3.trans (by omega),
      c4.trans (by simp; try omega)⟩

/-- When the retry loop of src/playlists.m3u.py reaches an attempt such
that the next j inputs fail and the input after them succeeds (with
enough fuel), it returns True at that succeeding attempt, with exactly
j + 1 more requests made. -/
theorem PlaylistsM3u.go_first_success_m3u
    (inputs : Nat → PlaylistsM3u.AttemptInput) :
    ∀ j f attempt fs reqs sleeps outs, j < f + 1 →
      (∀ i, i < j →
        (PlaylistsM3u.attempt_step none (inputs (attempt + i))).1 ≠
          .success) →
      (PlaylistsM3u.attempt_step none (inputs (attempt + j))).1 = .success →
      (PlaylistsM3u.download_go inputs (f + 1) attempt fs reqs sleeps
          outs).result = .returned (some true) ∧
      (PlaylistsM3u.download_go inputs (f + 1) attempt fs reqs sleeps
          outs).attemptsUsed = attempt + j + 1 ∧
      (PlaylistsM3u.download_go inputs (f + 1) attempt fs reqs sleeps
          outs).requestsMade = reqs + j + 1 := by
  intro j
  induction j with
  | zero =>
    intro f attempt fs reqs sleeps outs _ _ hok
    have hs : (PlaylistsM3u.attempt_step fs (inputs attempt)).1 = .success := by
      rw [PlaylistsM3u.attempt_step_fst_const_m3u fs none]
      simpa using hok
    refine ⟨?_, ?_, ?_⟩ <;> simp [PlaylistsM3u.download_go, hs]
  | succ j ih =>
    intro f attempt fs reqs sleeps outs hlt hfail hok
    obtain ⟨f, rfl⟩ : ∃ g, f = g + 1 := ⟨f - 1, by omega⟩
    have hs0 : (PlaylistsM3u.attempt_step fs (inputs attempt)).1 ≠
        .success := by
      rw [PlaylistsM3u.attempt_step_fst_const_m3u fs none]
      simpa using hfail 0 (by omega)
    have hstep : PlaylistsM3u.download_go inputs (f + 1 + 1) attempt fs reqs
        sleeps outs =
        PlaylistsM3u.download_go inputs (f + 1) (attempt + 1)
          (PlaylistsM3u.attempt_step fs (inputs attempt)).2 (reqs + 1)
          (if (PlaylistsM3u.attempt_step fs (inputs attempt)).1 ≠ .failEmpty ∧
              f + 1 ≠ 0 then sleeps ++ [2] else sleeps)
          (outs ++ [(PlaylistsM3u.attempt_step fs (inputs attempt)).1]) := by
      rw [PlaylistsM3u.download_go, if_neg hs0]
    rw [hstep]
    have hfail1 : ∀ i, i < j →
        (PlaylistsM3u.attempt_step none (inputs (attempt + 1 + i))).1 ≠
          .success := by
      intro i hi
      have h := hfail (i + 1) (by omega)
      have e : attempt + (i + 1) = attempt + 1 + i := by omega
      rwa [e] at h
    have hok1 : (PlaylistsM3u.attempt_step none
        (inputs (attempt + 1 + j))).1 = .success := by
      have e : attempt + (j + 1) = attempt + 1 + j := by omega
      rwa [e] at hok
    obtain ⟨c1, c2, c3⟩ := ih f (attempt + 1)
      (PlaylistsM3u.attempt_step fs (inputs attempt)).2 (reqs + 1)
      (if (PlaylistsM3u.attempt_step fs (inputs attempt)).1 ≠ .failEmpty ∧
          f + 1 ≠ 0 then sleeps ++ [2] else sleeps)
      (outs ++ [(PlaylistsM3u.attempt_step fs (inputs attempt)).1])
      (by omega) hfail1 hok1
    exact ⟨c1, c2.trans (by omega), c3.trans (by omega)⟩

/-- On a network where every attempt fails, the retry loop of
src/playlists.m3u.py sleeps the constant 2 exactly once for each
non-final executed attempt whose failure is not the empty-file case
(which raises no exception and reaches no sleep); in particular no delay
is ever exponential and none follows the final attempt. -/
theorem PlaylistsM3u.go_fail_sleeps (inputs : Nat → PlaylistsM3u.AttemptInput)
    (hf : ∀ k, (PlaylistsM3u.attempt_step none (inputs k)).1 ≠ .success) :
    ∀ f attempt fs reqs sleeps outs,
      (PlaylistsM3u.download_go inputs (f + 1) attempt fs reqs sleeps
          outs).sleeps =
        sleeps ++ List.replicate
          ((List.range' attempt f).filter (fun k =>
            decide ((PlaylistsM3u.attempt_step none (inputs k)).1 ≠
              .failEmpty))).length 2 := by
  intro f
  induction f with
  | zero =>
    intro attempt fs reqs sleeps outs
    have hs0 : (PlaylistsM3u.attempt_step fs (inputs attempt)).1 ≠
        .success := by
      rw [PlaylistsM3u.attempt_step_fst_const_m3u fs none]
      exact hf attempt
    have h0 : List.range' attempt 0 = [] := rfl
    simp [PlaylistsM3u.download_go, hs0, h0]
  | succ f ih =>
    intro attempt fs reqs sleeps outs
    have hs0 : (PlaylistsM3u.attempt_step fs (inputs attempt)).1 ≠
        .success := by
      rw [PlaylistsM3u.attempt_step_fst_const_m3u fs none]
      exact hf attempt
    have hfs := PlaylistsM3u.attempt_step_fst_const_m3u fs none (inputs attempt)
    rw [PlaylistsM3u.download_go, if_neg hs0, ih, List.range'_succ,
      List.filter_cons]
    by_cases hq : (PlaylistsM3u.attempt_step none (inputs attempt)).1 =
        .failEmpty
    · simp [hfs, hq]
    · simp [hfs, hq, List.replicate_succ, List.append_assoc]

/- Claim theorems. -/

/-- Claim C1, counterexample.  A single attempt of download_file in
src/playlists.py on a body with a valid gzip magic number but a corrupt
stream ends in Failure, yet leaves the just-written invalid content at the
destination path, although no content had ever been successfully written
there before (the prior state is none). -/
theorem C1_corrupt_gzip_left_at_destination :
    (Playlists.download_file decNone httpUrl xmlGzPath 1
        (fun _ => .respond 200 [0x1f, 0x8b]) none).result =
      .returned (some false) ∧
    (Playlists.download_file decNone httpUrl xmlGzPath 1
        (fun _ => .respond 200 [0x1f, 0x8b]) none).fs = some [0x1f, 0x8b] ∧
    some ([0x1f, 0x8b] : Bytes) ≠ none := by decide

/-- Claim C1 (amended): a failed attempt leaves the destination unchanged
when the failure is detected before the write (transport error, bad
status, in-memory content validation), but the post-write checks of
src/playlists.py (empty file, corrupt gzip) fail only after the response
body has already replaced the destination, and the file is not removed; a
successful attempt fully replaces any prior file with the response body.
In src/playlists.m3u.py, pre-write failures leave the destination
unchanged, an empty-file failure removes the file, and a body read that
fails midway leaves the partially written bytes at the destination. -/
theorem C1_attempt_filesystem_effects (dec : Bytes → Option Bytes)
    (sp : List Char) (fs : Option Bytes) (input : Playlists.AttemptInput)
    (fs₁ : Option Bytes) (input₂ : PlaylistsM3u.AttemptInput) :
    ((Playlists.attempt_step dec sp fs input).1 = .success →
      ∃ c, input = .respond 200 c ∧
        (Playlists.attempt_step dec sp fs input).2 = some c) ∧
    ((Playlists.attempt_step dec sp fs input).1 = .failTransport ∨
      (∃ st, (Playlists.attempt_step dec sp fs input).1 = .failStatus st) ∨
      (Playlists.attempt_step dec sp fs input).1 = .failContentM3u ∨
      (Playlists.attempt_step dec sp fs input).1 = .failContentGz →
      (Playlists.attempt_step dec sp fs input).2 = fs) ∧
    ((Playlists.attempt_step dec sp fs input).1 = .failEmpty ∨
      (Playlists.attempt_step dec sp fs input).1 = .failCorruptGzip →
      ∃ c, input = .respond 200 c ∧
        (Playlists.attempt_step dec sp fs input).2 = some c) ∧
    ((PlaylistsM3u.attempt_step fs₁ input₂).1 = .success →
      ∃ st c, input₂ = .respond st c ∧
        (PlaylistsM3u.attempt_step fs₁ input₂).2 = some c ∧ c ≠ []) ∧
    ((PlaylistsM3u.attempt_step fs₁ input₂).1 = .failTransport ∨
      (∃ st, (PlaylistsM3u.attempt_step fs₁ input₂).1 = .failHttpStatus st) →
      (PlaylistsM3u.attempt_step fs₁ input₂).2 = fs₁) ∧
    ((PlaylistsM3u.attempt_step fs₁ input₂).1 = .failEmpty →
      (PlaylistsM3u.attempt_step fs₁ input₂).2 = none) ∧
    ((PlaylistsM3u.attempt_step fs₁ input₂).1 = .failPartial →
      ∃ st w, input₂ = .respondPartial st w ∧
        (PlaylistsM3u.attempt_step fs₁ input₂).2 = some w) := by
  refine ⟨?_, ?_, ?_, ?_, ?_, ?_, ?_⟩ <;>
    cases input <;> cases input₂ <;>
      simp only [Playlists.attempt_step, PlaylistsM3u.attempt_step] <;>
      (try split_ifs) <;>
      simp_all [List.length_pos] <;>
      exact ⟨_, _, ⟨rfl, rfl⟩, rfl, by assumption⟩

/-- Claim C1, witness for the amended theorem: the corrupt-gzip failure of
a concrete attempt leaves the just-written body at the destination. -/
theorem C1_attempt_filesystem_effects_witness :
    (Playlists.attempt_step decNone xmlGzPath none
      (.respond 200 [0x1f, 0x8b])).2 = some [0x1f, 0x8b] := by
  obtain ⟨c, hc, hfs⟩ :=
    (C1_attempt_filesystem_effects decNone xmlGzPath none
      (.respond 200 [0x1f, 0x8b]) none .raiseTransport).2.2.1
      (Or.inr (by decide))
  injection hc with h1 h2
  rw [hfs, ← h2]

/-- Claim C2: the fan-in loop of main in src/playlists.py gives every
entry exactly one outcome and never aborts: success_count counts exactly
the entries whose future returned True, failure_count counts all others
(False, None, or a raised exception), and their sum is the number of
manifest entries. -/
theorem C2_batch_counts_complete : ∀ rs : List DlResult,
    (Playlists.main_counts rs).1 + (Playlists.main_counts rs).2 = rs.length ∧
    (Playlists.main_counts rs).1 =
      rs.countP (fun r => decide (r = .returned (some true))) ∧
    (Playlists.main_counts rs).2 =
      rs.countP (fun r => !decide (r = .returned (some true))) := by
  intro rs
  induction rs with
  | nil => simp [Playlists.main_counts]
  | cons r rs ih =>
    obtain ⟨h1, h2, h3⟩ := ih
    rw [h2, h3] at h1
    match r with
    | .raised e =>
      simp [Playlists.main_counts, List.countP_cons, h2, h3]
      omega
    | .returned none =>
      simp [Playlists.main_counts, List.countP_cons, h2, h3]
      omega
    | .returned (some true) =>
      simp [Playlists.main_counts, List.countP_cons, h2, h3]
      omega
    | .returned (some false) =>
      simp [Playlists.main_counts, List.countP_cons, h2, h3]
      omega

/-- Claim C3: when the URL does not start with http:// or https://, both
variants of download_file fail immediately before the attempt loop:
src/playlists.py raises InvalidURLError, src/playlists.m3u.py returns
False; no HTTP request is issued, no attempt is consumed, no delay is
slept, and the destination file is untouched. -/
theorem C3_invalid_url_immediate (url : List Char)
    (h : validate_url url = false) (dec : Bytes → Option Bytes)
    (sp : List Char) (retries retries₂ : Int)
    (inputs : Nat → Playlists.AttemptInput)
    (inputs₂ : Nat → PlaylistsM3u.AttemptInput) (fs₀ fs₁ : Option Bytes) :
    Playlists.download_file dec url sp retries inputs fs₀ =
      ⟨.raised .invalidURLError, 0, 0, [], [], fs₀⟩ ∧
    PlaylistsM3u.download_file url retries₂ inputs₂ fs₁ =
      ⟨.returned (some false), 0, 0, [], [], fs₁⟩ := by
  constructor
  · simp [Playlists.download_file, h]
  · simp [PlaylistsM3u.download_file, h]

/-- Claim C3, witness at the spec scenario URL ftp://example.com/x. -/
theorem C3_invalid_url_immediate_witness :
    Playlists.download_file decNone ftpUrl m3uPath 3
        (fun _ => .raiseTransport) none =
      ⟨.raised .invalidURLError, 0, 0, [], [], none⟩ ∧
    PlaylistsM3u.download_file ftpUrl 3 (fun _ => .raiseTransport) none =
      ⟨.returned (some false), 0, 0, [], [], none⟩ :=
  C3_invalid_url_immediate ftpUrl (by decide) decNone m3uPath 3 3
    (fun _ => .raiseTransport) (fun _ => .raiseTransport) none none

/-- Claim C7: is_valid_m3u accepts exactly the contents whose first 100
bytes contain the marker #EXTM3U, and is_valid_xml_gz accepts exactly the
contents whose first two bytes are 0x1F 0x8B. -/
theorem C7_content_classifier : ∀ content : Bytes,
    (Playlists.is_valid_m3u content = true ↔
      ∃ l r, content.take 100 = l ++ Playlists.extm3uMarker ++ r) ∧
    (Playlists.is_valid_xml_gz content = true ↔
      ∃ rest, content = 0x1f :: 0x8b :: rest) := by
  intro content
  constructor
  · exact bytesContains_iff _ _
  · match content with
    | [] => simp [Playlists.is_valid_xml_gz]
    | [a] =>
      simp only [Playlists.is_valid_xml_gz]
      constructor
      · intro h; exact absurd h (by simp [List.take])
      · rintro ⟨rest, h⟩; exact absurd h (by simp)
    | a :: b :: t =>
      have ht : Playlists.is_valid_xml_gz (a :: b :: t) =
          ([a, b] == [0x1f, 0x8b]) := rfl
      rw [ht]
      simp only [beq_iff_eq, List.cons.injEq, and_true]
      constructor
      · rintro ⟨rfl, rfl⟩
        exact ⟨t, rfl, rfl, rfl⟩
      · rintro ⟨rest, h1, h2, h3⟩
        exact ⟨h1, h2⟩

/-- Claim C7, witness: a concrete playlist body and a concrete gzip
header are accepted. -/
theorem C7_content_classifier_witness :
    Playlists.is_valid_m3u extm3uBody = true ∧
    Playlists.is_valid_xml_gz [0x1f, 0x8b, 8] = true :=
  ⟨(C7_content_classifier extm3uBody).1.mpr ⟨[], [10], by decide⟩,
   (C7_content_classifier [0x1f, 0x8b, 8]).2.mpr ⟨[8], rfl⟩⟩

/-- Claim C8, counterexample.  A file that is a valid gzip stream whose
payload decodes to zero bytes passes verify_gzip: gzip.open followed by
read(1) returns the empty byte string without raising, so the function
returns True although the claim requires such a file to fail the check. -/
theorem C8_empty_payload_passes :
    Playlists.verify_gzip decEmptyPayload [0x1f, 0x8b, 8] = true ∧
    decEmptyPayload [0x1f, 0x8b, 8] = some [] := by decide

/-- Claim C8 (amended): verify_gzip returns true iff the file can be
opened as a gzip stream and the one-byte read completes without raising,
i.e. iff decoding succeeds — regardless of how many bytes the stream
decodes to; in particular a stream decoding to zero bytes passes. -/
theorem C8_verify_gzip_spec : ∀ (dec : Bytes → Option Bytes) (c : Bytes),
    (Playlists.verify_gzip dec c = true ↔ ∃ p, dec c = some p) ∧
    (dec c = some [] → Playlists.verify_gzip dec c = true) := by
  intro dec c
  constructor
  · simp [Playlists.verify_gzip, Option.isSome_iff_exists]
  · intro h; simp [Playlists.verify_gzip, h]

/-- Claim C8, witness: a zero-payload stream passes the check. -/
theorem C8_verify_gzip_spec_witness :
    Playlists.verify_gzip decEmptyPayload [] = true :=
  (C8_verify_gzip_spec decEmptyPayload []).2 rfl

/-- Claim C4: with a valid URL and at least one allowed attempt, a
network failing with a transport error on every attempt makes
download_file run exactly `retries` attempts (and issue exactly `retries`
requests) in both variants and then return a terminal failure whose last
recorded error is the transport error of the final attempt; and whenever
the succeeding attempt is the j-th one (any position 1 ≤ j ≤ retries,
with the earlier attempts failing), both variants return True immediately
at attempt j: exactly j attempts and j requests, and no delay after the
success. -/
theorem C4_retry_exhaustion (dec : Bytes → Option Bytes) (sp url : List Char)
    (retries : Int) (_hr : 1 ≤ retries) (hu : validate_url url = true)
    (inputs : Nat → Playlists.AttemptInput)
    (hi : ∀ k, inputs k = .raiseTransport)
    (inputs₂ : Nat → PlaylistsM3u.AttemptInput)
    (hi₂ : ∀ k, inputs₂ k = .raiseTransport)
    (fs₀ fs₁ : Option Bytes)
    (j : Nat) (hj1 : 1 ≤ j) (hj2 : j ≤ retries.toNat)
    (inputsOk : Nat → Playlists.AttemptInput)
    (hfail : ∀ i, 1 ≤ i → i < j →
      (Playlists.attempt_step dec sp none (inputsOk i)).1 ≠ .success)
    (hok : (Playlists.attempt_step dec sp none (inputsOk j)).1 = .success)
    (inputsOk₂ : Nat → PlaylistsM3u.AttemptInput)
    (hfail₂ : ∀ i, i < j - 1 →
      (PlaylistsM3u.attempt_step none (inputsOk₂ i)).1 ≠ .success)
    (hok₂ : (PlaylistsM3u.attempt_step none (inputsOk₂ (j - 1))).1 =
      .success) :
    Playlists.download_file dec url sp retries inputs fs₀ =
      ⟨.returned (some false), retries.toNat, retries.toNat,
       (List.range (retries.toNat - 1)).map (fun i => 2 ^ (1 + i)),
       List.replicate retries.toNat .failTransport, fs₀⟩ ∧
    (Playlists.download_file dec url sp retries inputs fs₀).outcomes.getLast?
      = some .failTransport ∧
    PlaylistsM3u.download_file url retries inputs₂ fs₁ =
      ⟨.returned (some false), retries.toNat, retries.toNat,
       List.replicate (retries.toNat - 1) 2,
       List.replicate retries.toNat .failTransport, fs₁⟩ ∧
    (Playlists.download_file dec url sp retries inputsOk fs₀).result =
      .returned (some true) ∧
    (Playlists.download_file dec url sp retries inputsOk fs₀).attemptsUsed =
      j ∧
    (Playlists.download_file dec url sp retries inputsOk fs₀).requestsMade =
      j ∧
    (Playlists.download_file dec url sp retries inputsOk fs₀).sleeps.length =
      j - 1 ∧
    (PlaylistsM3u.download_file url retries inputsOk₂ fs₁).result =
      .returned (some true) ∧
    (PlaylistsM3u.download_file url retries inputsOk₂ fs₁).attemptsUsed = j ∧
    (PlaylistsM3u.download_file url retries inputsOk₂ fs₁).requestsMade =
      j := by
  obtain ⟨n, hn⟩ : ∃ n, retries.toNat = n + 1 := ⟨retries.toNat - 1, by omega⟩
  have hft : Playlists.download_file dec url sp retries inputs fs₀ =
      ⟨.returned (some false), retries.toNat, retries.toNat,
       (List.range (retries.toNat - 1)).map (fun i => 2 ^ (1 + i)),
       List.replicate retries.toNat .failTransport, fs₀⟩ := by
    rw [Playlists.download_file, if_pos hu, hn,
      Playlists.go_transport_py dec sp inputs hi]
    congr 1 <;> omega
  have hm3u : PlaylistsM3u.download_file url retries inputs₂ fs₁ =
      ⟨.returned (some false), retries.toNat, retries.toNat,
       List.replicate (retries.toNat - 1) 2,
       List.replicate retries.toNat .failTransport, fs₁⟩ := by
    rw [PlaylistsM3u.download_file, if_pos hu, hn,
      PlaylistsM3u.go_transport_m3u inputs₂ hi₂]
    congr 1 <;> omega
  have hDF : Playlists.download_file dec url sp retries inputsOk fs₀ =
      Playlists.download_go dec sp inputsOk (n + 1) 1 fs₀ 0 [] [] := by
    rw [Playlists.download_file, if_pos hu, hn]
  have hfail1 : ∀ i, i < j - 1 →
      (Playlists.attempt_step dec sp none (inputsOk (1 + i))).1 ≠
        .success := by
    intro i hi'
    exact hfail (1 + i) (by omega) (by omega)
  have hok1 : (Playlists.attempt_step dec sp none
      (inputsOk (1 + (j - 1)))).1 = .success := by
    have e : 1 + (j - 1) = j := by omega
    rw [e]
    exact hok
  obtain ⟨p1, p2, p3, p4⟩ := Playlists.go_first_success_py dec sp inputsOk
    (j - 1) n 1 fs₀ 0 [] [] (by omega) hfail1 hok1
  have hDF₂ : PlaylistsM3u.download_file url retries inputsOk₂ fs₁ =
      PlaylistsM3u.download_go inputsOk₂ (n + 1) 0 fs₁ 0 [] [] := by
    rw [PlaylistsM3u.download_file, if_pos hu, hn]
  have hfail2 : ∀ i, i < j - 1 →
      (PlaylistsM3u.attempt_step none (inputsOk₂ (0 + i))).1 ≠ .success := by
    intro i hi'
    simpa using hfail₂ i hi'
  have hok2 : (PlaylistsM3u.attempt_step none
      (inputsOk₂ (0 + (j - 1)))).1 = .success := by
    simpa using hok₂
  obtain ⟨q1, q2, q3⟩ := PlaylistsM3u.go_first_success_m3u inputsOk₂
    (j - 1) n 0 fs₁ 0 [] [] (by omega) hfail2 hok2
  refine ⟨hft, ?_, hm3u, ?_, ?_, ?_, ?_, ?_, ?_, ?_⟩
  · rw [hft, hn]
    exact getLast?_replicate_succ _ n
  · rw [hDF]
    exact p1
  · rw [hDF]
    exact p2.trans (by omega)
  · rw [hDF]
    exact p3.trans (by omega)
  · rw [hDF]
    exact p4.trans (by simp; try omega)
  · rw [hDF₂]
    exact q1
  · rw [hDF₂]
    exact q2.trans (by omega)
  · rw [hDF₂]
    exact q3.trans (by omega)

/-- Claim C4, witness: with 3 attempts, both variants make exactly 3
failing attempts on persistent transport errors; and with a success at
the second attempt (the first failing), both variants stop after exactly
2 attempts and 2 requests, the py variant having slept once. -/
theorem C4_retry_exhaustion_witness :
    Playlists.download_file decNone httpUrl m3uPath 3
        (fun _ => .raiseTransport) none =
      ⟨.returned (some false), 3, 3, [2, 4],
       [.failTransport, .failTransport, .failTransport], none⟩ ∧
    PlaylistsM3u.download_file httpUrl 3 (fun _ => .raiseTransport) none =
      ⟨.returned (some false), 3, 3, [2, 2],
       [.failTransport, .failTransport, .failTransport], none⟩ ∧
    (Playlists.download_file decNone httpUrl m3uPath 3 failThenOk
        none).result = .returned (some true) ∧
    (Playlists.download_file decNone httpUrl m3uPath 3 failThenOk
        none).attemptsUsed = 2 ∧
    (Playlists.download_file decNone httpUrl m3uPath 3 failThenOk
        none).requestsMade = 2 ∧
    (Playlists.download_file decNone httpUrl m3uPath 3 failThenOk
        none).sleeps.length = 1 ∧
    (PlaylistsM3u.download_file httpUrl 3 failThenOk₂ none).result =
      .returned (some true) ∧
    (PlaylistsM3u.download_file httpUrl 3 failThenOk₂ none).attemptsUsed =
      2 ∧
    (PlaylistsM3u.download_file httpUrl 3 failThenOk₂ none).requestsMade =
      2 := by
  obtain ⟨h1, -, h3, h4, h5, h6, h7, h8, h9, h10⟩ :=
    C4_retry_exhaustion decNone m3uPath httpUrl 3 (by decide) (by decide)
      (fun _ => .raiseTransport) (fun _ => rfl)
      (fun _ => .raiseTransport) (fun _ => rfl) none none
      2 (by decide) (by decide)
      failThenOk
      (fun i hi1 hi2 => by
        have e : i = 1 := by omega
        subst e
        decide)
      (by decide)
      failThenOk₂
      (fun i hi1 => by
        have e : i = 0 := by omega
        subst e
        decide)
      (by decide)
  exact ⟨h1.trans (by decide), h3.trans (by decide), h4, h5, h6, h7,
    h8, h9, h10⟩

/-- Claim C5, counterexample.  In src/playlists.m3u.py with 3 attempts all
failing with a transport error, the delays slept before attempts 2 and 3
are both the constant DELAY_BETWEEN_TRIES = 2: the delay before attempt 3
is 2, not base_delay * 2 ^ (2 - 1) = 4 (for the base delay 2 that the
first slept delay fixes), so the delays are neither exponential nor
increasing. -/
theorem C5_constant_delay_m3u :
    (PlaylistsM3u.download_file httpUrl 3
        (fun _ => .raiseTransport) none).sleeps = [2, 2] ∧
    (2 : Nat) ≠ 2 * 2 ^ (2 - 1) := by decide

/-- Claim C5 (amended): in src/playlists.py the delay slept after failed
attempt k with attempts remaining is 2 ^ k = 2 * 2 ^ (k - 1) seconds
(exponential with base delay 2, strictly increasing), and no delay is
slept after the final attempt.  In src/playlists.m3u.py the delay is the
constant 2 seconds (DELAY_BETWEEN_TRIES) — never exponential — slept
after exactly those non-final failed attempts that raised an exception;
an empty-file failed attempt raises no exception and sleeps nothing, and
no delay follows the final attempt. -/
theorem C5_backoff_delays (dec : Bytes → Option Bytes) (sp url : List Char)
    (retries : Int) (hr : 1 ≤ retries) (hu : validate_url url = true)
    (inputs : Nat → Playlists.AttemptInput)
    (hi : ∀ k, inputs k = .raiseTransport)
    (inputs₂ : Nat → PlaylistsM3u.AttemptInput)
    (hi₂ : ∀ k, inputs₂ k = .raiseTransport)
    (inputsF : Nat → PlaylistsM3u.AttemptInput)
    (hfF : ∀ k, (PlaylistsM3u.attempt_step none (inputsF k)).1 ≠ .success)
    (fs₀ fs₁ fs₂ : Option Bytes) :
    (Playlists.download_file dec url sp retries inputs fs₀).sleeps =
      (List.range (retries.toNat - 1)).map (fun i => 2 * 2 ^ i) ∧
    List.Pairwise (· < ·)
      (Playlists.download_file dec url sp retries inputs fs₀).sleeps ∧
    (Playlists.download_file dec url sp retries inputs fs₀).sleeps.length =
      retries.toNat - 1 ∧
    (PlaylistsM3u.download_file url retries inputs₂ fs₁).sleeps =
      List.replicate (retries.toNat - 1) 2 ∧
    (PlaylistsM3u.download_file url retries inputs₂ fs₁).sleeps.length =
      retries.toNat - 1 ∧
    (PlaylistsM3u.download_file url retries inputsF fs₂).sleeps =
      List.replicate
        ((List.range' 0 (retries.toNat - 1)).filter (fun k =>
          decide ((PlaylistsM3u.attempt_step none (inputsF k)).1 ≠
            .failEmpty))).length 2 := by
  obtain ⟨n, hn⟩ : ∃ n, retries.toNat = n + 1 := ⟨retries.toNat - 1, by omega⟩
  have hsl : (Playlists.download_file dec url sp retries inputs fs₀).sleeps =
      (List.range (retries.toNat - 1)).map (fun i => 2 * 2 ^ i) := by
    rw [Playlists.download_file, if_pos hu, hn,
      Playlists.go_transport_py dec sp inputs hi]
    simp only [List.nil_append, Nat.add_sub_cancel]
    refine List.map_congr_left ?_
    intro i _
    rw [pow_add, pow_one]
  have hsl₂ : (PlaylistsM3u.download_file url retries inputs₂ fs₁).sleeps =
      List.replicate (retries.toNat - 1) 2 := by
    rw [PlaylistsM3u.download_file, if_pos hu, hn,
      PlaylistsM3u.go_transport_m3u inputs₂ hi₂]
    simp
  have hslF : (PlaylistsM3u.download_file url retries inputsF fs₂).sleeps =
      List.replicate
        ((List.range' 0 (retries.toNat - 1)).filter (fun k =>
          decide ((PlaylistsM3u.attempt_step none (inputsF k)).1 ≠
            .failEmpty))).length 2 := by
    rw [PlaylistsM3u.download_file, if_pos hu, hn,
      PlaylistsM3u.go_fail_sleeps inputsF hfF n 0 fs₂ 0 [] []]
    simp
  refine ⟨hsl, ?_, ?_, hsl₂, ?_, hslF⟩
  · rw [hsl]
    refine List.Pairwise.map _ ?_ (List.pairwise_lt_range _)
    intro a b hab
    have h2 : (2 : Nat) ^ a < 2 ^ b := Nat.pow_lt_pow_right (by norm_num) hab
    omega
  · rw [hsl]
    simp
  · rw [hsl₂]
    simp

/-- Claim C5, witness: with 3 persistently transport-failing attempts the
py variant sleeps 2 then 4 seconds, the m3u variant 2 then 2; and when
the first m3u attempt fails with an empty file and the second with a
transport error, the m3u variant sleeps only once (after the transport
failure), 2 seconds. -/
theorem C5_backoff_delays_witness :
    (Playlists.download_file decNone httpUrl m3uPath 3
        (fun _ => .raiseTransport) none).sleeps = [2, 4] ∧
    (PlaylistsM3u.download_file httpUrl 3
        (fun _ => .raiseTransport) none).sleeps = [2, 2] ∧
    (PlaylistsM3u.download_file httpUrl 3 emptyThenTransport none).sleeps =
      [2] := by
  obtain ⟨h1, -, -, h4, -, h6⟩ :=
    C5_backoff_delays decNone m3uPath httpUrl 3 (by decide) (by decide)
      (fun _ => .raiseTransport) (fun _ => rfl)
      (fun _ => .raiseTransport) (fun _ => rfl)
      emptyThenTransport
      (fun k => by
        cases k with
        | zero => decide
        | succ m => simp [emptyThenTransport, PlaylistsM3u.attempt_step])
      none none none
  exact ⟨h1.trans (by decide), h4.trans (by decide), h6.trans (by decide)⟩

/-- Claim C6, counterexample.  A 201 response (inside the 2xx range) fails
the status check of src/playlists.py, which accepts only exactly 200; and
a 304 response (outside the 2xx range) passes raise_for_status in
src/playlists.m3u.py and the attempt succeeds. -/
theorem C6_status_not_2xx_counterexample :
    (Playlists.attempt_step decNone m3uPath none
        (.respond 201 extm3uBody)).1 = .failStatus 201 ∧
    200 ≤ 201 ∧ 201 < 300 ∧
    (PlaylistsM3u.attempt_step none (.respond 304 [65])).1 = .success ∧
    300 ≤ 304 := by decide

/-- Claim C6 (amended): the status check of src/playlists.py fails exactly
when the status differs from 200 (so 2xx statuses other than 200 fail
too), while raise_for_status in src/playlists.m3u.py fails exactly when
400 ≤ status < 600 (so non-2xx statuses below 400, e.g. redirects, pass). -/
theorem C6_status_check_conditions : ∀ (dec : Bytes → Option Bytes)
    (sp : List Char) (fs fs₁ : Option Bytes) (status : Nat) (content : Bytes),
    ((Playlists.attempt_step dec sp fs (.respond status content)).1 =
        .failStatus status ↔ status ≠ 200) ∧
    ((PlaylistsM3u.attempt_step fs₁ (.respond status content)).1 =
        .failHttpStatus status ↔ 400 ≤ status ∧ status < 600) := by
  intro dec sp fs fs₁ status content
  constructor
  · simp only [Playlists.attempt_step]
    split_ifs <;> simp_all
  · simp only [PlaylistsM3u.attempt_step]
    split_ifs <;> simp_all

/-- Claim C6, witness: a 404 response fails the status check in both
variants. -/
theorem C6_status_check_conditions_witness :
    (Playlists.attempt_step decNone m3uPath none
        (.respond 404 extm3uBody)).1 = .failStatus 404 ∧
    (PlaylistsM3u.attempt_step none (.respond 404 [65])).1 =
      .failHttpStatus 404 :=
  ⟨(C6_status_check_conditions decNone m3uPath none none 404 extm3uBody).1.mpr
      (by decide),
   (C6_status_check_conditions decNone m3uPath none none 404 [65]).2.mpr
      (by decide)⟩

/-- Claim C10: for a valid URL, calling download_file of src/playlists.py
with retries ≤ 0 never executes the loop body — no HTTP request, no sleep,
no attempt, destination untouched — and the function returns None (falling
off the loop); with retries ≥ 1 it returns a boolean. -/
theorem C10_nonpositive_retries_returns_none (dec : Bytes → Option Bytes)
    (url sp : List Char) (hu : validate_url url = true)
    (inputs : Nat → Playlists.AttemptInput) (fs₀ : Option Bytes)
    (retries : Int) (hr : retries ≤ 0) (retries₂ : Int) (hr₂ : 1 ≤ retries₂) :
    Playlists.download_file dec url sp retries inputs fs₀ =
      ⟨.returned none, 0, 0, [], [], fs₀⟩ ∧
    ∃ b, (Playlists.download_file dec url sp retries₂ inputs fs₀).result =
      .returned (some b) := by
  constructor
  · have h0 : retries.toNat = 0 := by omega
    rw [Playlists.download_file, if_pos hu, h0, Playlists.download_go]
  · obtain ⟨n, hn⟩ : ∃ n, retries₂.toNat = n + 1 := ⟨retries₂.toNat - 1, by omega⟩
    rw [Playlists.download_file, if_pos hu, hn]
    exact Playlists.go_bool dec sp inputs n 1 fs₀ 0 [] []

/-- Claim C10, witness: retries = 0 returns None with no request and no
sleep; retries = 3 returns a boolean. -/
theorem C10_nonpositive_retries_returns_none_witness :
    Playlists.download_file decNone httpUrl m3uPath 0
        (fun _ => .raiseTransport) none =
      ⟨.returned none, 0, 0, [], [], none⟩ ∧
    ∃ b, (Playlists.download_file decNone httpUrl m3uPath 3
        (fun _ => .raiseTransport) none).result = .returned (some b) :=
  C10_nonpositive_retries_returns_none decNone httpUrl m3uPath (by decide)
    (fun _ => .raiseTransport) none 0 (by decide) 3 (by decide)
